import Mathlib

/-!
Shallow embedding of `request_logger_mw/middleware.go` from
tilteng/go-api-request-logger: an HTTP request/response logging
middleware.  Pure Go values are modelled as Lean values; the mutable
parts that the claims need (the slice storage behind header values, the
heap cells holding `RequestLoggerOpts`) are modelled with explicit
stores.  Go `nil` interface values become `Option`; calling a method on
a `nil` interface (a Go runtime panic) is modelled by returning `none`
from the affected operation.
-/

/-- Model of `context.Context`: an opaque value threaded through calls. -/
abbrev Ctx := Nat

/-- Model of a `logger.CtxLogger` value: an identity for a log sink. -/
abbrev Logger := Nat

/-- Model of a body byte slice (`[]byte`). -/
abbrev Body := List Nat

/-- Model of `http.Header`: an ordered map from keys to value sequences. -/
abbrev Header := List (String × List String)

/-- Model of `RequestLoggerOpts` (middleware.go lines 35-40).  A `nil`
filter or logger field is `none`. -/
structure RequestLoggerOpts where
  logBodyFilter : Option (Ctx → Body → Body)
  logHeadersFilter : Option (Ctx → Header → Header)
  logger : Option Logger
  disable : Bool

instance : Inhabited RequestLoggerOpts :=
  ⟨{ logBodyFilter := none, logHeadersFilter := none, logger := none,
     disable := false }⟩

/-- Model of `RequestLoggerMiddleware` (line 42-44): holds the base opts. -/
structure RequestLoggerMiddleware where
  opts : RequestLoggerOpts

/-- Model of `RequestLoggerWrapper` (lines 73-76). -/
structure RequestLoggerWrapper where
  opts : RequestLoggerOpts
  base_opts : RequestLoggerOpts

/-- One element of the variadic `opts ...interface{}` argument of
`NewWrapper`.  `optsPtr o` is a value of type `*RequestLoggerOpts`
(with `optsPtr none` a typed nil pointer); `other` is a value of any
other dynamic type, for which the type assertion fails. -/
inductive WrapperArg where
  | optsPtr (o : Option RequestLoggerOpts)
  | other

/-- The loop of `NewWrapper` (lines 49-55): probe the variadic arguments
for the first `*RequestLoggerOpts`; `break` on the first hit (even a
typed nil pointer, which leaves `opt == nil`). -/
def resolveOpt : List WrapperArg → Option RequestLoggerOpts
  | [] => none
  | WrapperArg.optsPtr o :: _ => o
  | WrapperArg.other :: rest => resolveOpt rest

/-- The opts synthesized by `NewWrapper` when no override is resolved
(lines 57-61): only the base logger is carried over; filters stay nil
and `Disable` is the zero value `false`. -/
def synthOpts (m : RequestLoggerMiddleware) : RequestLoggerOpts :=
  { logBodyFilter := none, logHeadersFilter := none,
    logger := m.opts.logger, disable := false }

/-- Model of `RequestLoggerMiddleware.NewWrapper` (lines 46-71). -/
def RequestLoggerMiddleware.NewWrapper (m : RequestLoggerMiddleware)
    (args : List WrapperArg) : Option RequestLoggerWrapper :=
  let opt := (resolveOpt args).getD (synthOpts m)
  if opt.disable then none
  else some { base_opts := m.opts, opts := opt }

/-- Model of the external `logger.DefaultStdoutCtxLogger()`. -/
def defaultStdoutCtxLogger : Logger := 0

/-- Model of `NewMiddleware` (lines 180-190): defaults missing opts and
fills in a default stdout logger when the logger field is nil. -/
def NewMiddleware (opts : Option RequestLoggerOpts) : RequestLoggerMiddleware :=
  let o := opts.getD
    { logBodyFilter := none, logHeadersFilter := none, logger := none,
      disable := false }
  let o := if o.logger.isNone then { o with logger := some defaultStdoutCtxLogger }
           else o
  { opts := o }

/-- Model of `RequestLoggerWrapper.filterBody` (lines 83-94).  Note the
source checks `self.base_opts.LogBodyFilter != nil` but then calls
`self.opts.LogBodyFilter.FilterBody`; when the per-invocation filter is
nil this is a method call on a nil interface, a Go runtime panic,
modelled as `none`. -/
def RequestLoggerWrapper.filterBody (w : RequestLoggerWrapper) (ctx : Ctx)
    (body : Body) : Option Body :=
  let body1 := match w.opts.logBodyFilter with
    | some f => f ctx body
    | none => body
  if w.base_opts.logBodyFilter.isSome then
    match w.opts.logBodyFilter with
    | some f => some (f ctx body1)
    | none => none
  else
    some body1

/-- The deep-copy loop of `filterHeaders` (lines 97-101) at the level of
values: a fresh map whose value sequences are element-wise copies. -/
def copyHeader (hdrs : Header) : Header :=
  hdrs.map (fun kv => (kv.1, kv.2.map id))

/-- The filter-application part of `filterHeaders` (lines 103-109),
applied after the deep copy.  Same nil-interface anomaly as
`filterBody`: the second branch checks the base filter but calls the
per-invocation one. -/
def headerFilterPolicy (w : RequestLoggerWrapper) (ctx : Ctx)
    (n_hdrs : Header) : Option Header :=
  let n1 := match w.opts.logHeadersFilter with
    | some f => f ctx n_hdrs
    | none => n_hdrs
  if w.base_opts.logHeadersFilter.isSome then
    match w.opts.logHeadersFilter with
    | some f => some (f ctx n1)
    | none => none
  else
    some n1

/-- Model of `RequestLoggerWrapper.filterHeaders` (lines 96-112): deep
copy first, then the filter policy. -/
def RequestLoggerWrapper.filterHeaders (w : RequestLoggerWrapper) (ctx : Ctx)
    (hdrs : Header) : Option Header :=
  headerFilterPolicy w ctx (copyHeader hdrs)

/-- Model of a `url.URL` value as far as the middleware reads it:
`EscapedPath()` and the raw query (`Query()` is derived from it). -/
structure URL where
  path : String
  query : String
  deriving DecidableEq

/-- The per-request mutable state visible to the middleware: the live
request URL (`http_req.URL` target, which the downstream handler may
mutate) and the response captured by the `ResponseWriter` after the
handler ran (`Status()`, `Header()`, `ResponseCopy()`). -/
structure ReqState where
  url : URL
  respStatus : Nat
  respHeaders : Header
  respBody : Body
  deriving DecidableEq

/-- The `route` fragment of the log record (lines 140-145). -/
structure RouteInfo where
  method : String
  route : String
  path : String
  query : String
  deriving DecidableEq

/-- The `request` fragment of the log record (lines 139-148). -/
structure RequestLogInfo where
  route : RouteInfo
  headers : Header
  body : Body
  deriving DecidableEq

/-- The `response` fragment of the log record (lines 165-169). -/
structure ResponseLogInfo where
  status : Nat
  headers : Header
  body : Body
  deriving DecidableEq

/-- The structured payload handed to the log sink: the first call sends
the request fragment alone, the second re-serializes the same record
extended with the response fragment. -/
inductive LogMsg where
  | request (req : RequestLogInfo)
  | full (req : RequestLogInfo) (resp : ResponseLogInfo)
  deriving DecidableEq

/-- Observable events of one run of the wrapped handler: calls to
`Logger.LogDebug` and the invocation of the downstream handler. -/
inductive Event where
  | logDebug (ctx : Ctx) (tag : String) (msg : LogMsg)
  | handlerRun
  deriving DecidableEq

/-- Why a run of the wrapped handler panicked.  `bodyRead e` is the
explicit `panic(fmt.Sprintf(..., err))` of line 129, carrying the
underlying cause `e`; `nilFilterCall` is the runtime panic from calling
`FilterBody`/`FilterHeaders` on a nil interface inside the filter
helpers. -/
inductive PanicReason where
  | bodyRead (cause : String)
  | nilFilterCall
  deriving DecidableEq

/-- Result of one run of the wrapped handler: normal completion with the
emitted events and the final request state, or a panic with the events
emitted before it. -/
inductive WrapResult where
  | ok (events : List Event) (final : ReqState)
  | panicked (reason : PanicReason) (events : List Event)
  deriving DecidableEq

/-- The events of a run, whether or not it panicked. -/
def WrapResult.events : WrapResult → List Event
  | .ok evs _ => evs
  | .panicked _ evs => evs

/-- The read-only request data the route context supplies to the
wrapped handler (lines 116-119 and 127): ambient context, method, the
full path of the current route, the live request headers, and the
result of `rctx.BodyCopy()`. -/
structure WrapInput where
  ctx : Ctx
  method : String
  routeFullPath : String
  reqHeaders : Header
  bodyCopy : Except String Body
  initState : ReqState

/-- Model of the closure returned by `RequestLoggerWrapper.Wrap`
(lines 114-178).  The downstream handler is modelled by its effect on
the per-request state, given the (unchanged) ambient context. -/
def RequestLoggerWrapper.wrap (w : RequestLoggerWrapper) (inp : WrapInput)
    (handler : Ctx → ReqState → ReqState) : WrapResult :=
  if w.opts.logger.isNone || w.opts.disable then
    .ok [.handlerRun] (handler inp.ctx inp.initState)
  else
    match inp.bodyCopy with
    | .error e => .panicked (.bodyRead e) []
    | .ok body =>
      let origUrl := inp.initState.url
      match w.filterBody inp.ctx body with
      | none => .panicked .nilFilterCall []
      | some fbody =>
        match w.filterHeaders inp.ctx inp.reqHeaders with
        | none => .panicked .nilFilterCall []
        | some fhdrs =>
          let reqInfo : RequestLogInfo :=
            { route := { method := inp.method, route := inp.routeFullPath,
                         path := origUrl.path, query := origUrl.query },
              headers := fhdrs, body := fbody }
          let ev1 : Event := .logDebug inp.ctx "Received request:" (.request reqInfo)
          let final := handler inp.ctx inp.initState
          match w.filterBody inp.ctx final.respBody with
          | none => .panicked .nilFilterCall [ev1, .handlerRun]
          | some rbody =>
            match w.filterHeaders inp.ctx final.respHeaders with
            | none => .panicked .nilFilterCall [ev1, .handlerRun]
            | some rhdrs =>
              let respInfo : ResponseLogInfo :=
                { status := final.respStatus, headers := rhdrs, body := rbody }
              .ok [ev1, .handlerRun,
                   .logDebug inp.ctx "Sent response:" (.full reqInfo respInfo)]
                final

/-- A store of `[]string` slices: the storage behind header values.
Allocation appends; a reference is an index into the store. -/
structure SliceHeap where
  slices : List (List String)

/-- `make([]string, n)`: allocate a fresh slice, returning its reference. -/
def SliceHeap.alloc (st : SliceHeap) (v : List String) : SliceHeap × Nat :=
  ({ slices := st.slices ++ [v] }, st.slices.length)

/-- Dereference a slice. -/
def SliceHeap.read (st : SliceHeap) (r : Nat) : List String :=
  st.slices.getD r []

/-- A header map at the pointer level: keys paired with references to
their value slices. -/
abbrev HeaderRef := List (String × Nat)

/-- Pointer-level model of the copy loop of `filterHeaders` (lines
97-101): for every key, `make` a fresh slice of the same length and
`copy` the elements into it. -/
def copyHeadersAlloc : SliceHeap → HeaderRef → SliceHeap × HeaderRef
  | st, [] => (st, [])
  | st, (k, r) :: rest =>
    let v := st.read r
    let (st1, rn) := st.alloc (v.map id)
    let (st2, restCopy) := copyHeadersAlloc st1 rest
    (st2, (k, rn) :: restCopy)

/-- The header contents a pointer-level header map denotes. -/
def derefHeader (st : SliceHeap) (h : HeaderRef) : Header :=
  h.map (fun kv => (kv.1, st.read kv.2))

/-- A heap of `RequestLoggerOpts` cells; `*RequestLoggerOpts` pointers
are indices into it. -/
structure OptHeap where
  cells : List RequestLoggerOpts

/-- Dereference an opts pointer. -/
def OptHeap.get (h : OptHeap) (r : Nat) : RequestLoggerOpts :=
  h.cells.getD r default

/-- Assign through an opts pointer. -/
def OptHeap.set (h : OptHeap) (r : Nat) (v : RequestLoggerOpts) : OptHeap :=
  { cells := h.cells.set r v }

/-- `&RequestLoggerOpts{...}`: allocate a fresh cell. -/
def OptHeap.alloc (h : OptHeap) (v : RequestLoggerOpts) : OptHeap × Nat :=
  ({ cells := h.cells ++ [v] }, h.cells.length)

/-- A middleware at the pointer level: `RequestLoggerMiddleware.opts`
is a pointer into the opts heap. -/
structure MiddlewareRef where
  optsRef : Nat

/-- A wrapper at the pointer level: both fields are pointers into the
opts heap (lines 67-70 store `self.opts` and the resolved `opt`). -/
structure WrapperRef where
  optsRef : Nat
  baseOptsRef : Nat
  deriving DecidableEq

/-- The variadic-argument probe of `NewWrapper` at the pointer level:
`some r` is a `*RequestLoggerOpts` argument, `none` an argument of any
other type. -/
def resolveOptRef : List (Option Nat) → Option Nat
  | [] => none
  | some r :: _ => some r
  | none :: rest => resolveOptRef rest

/-- Pointer-level model of `RequestLoggerMiddleware.NewWrapper` (lines
46-71): resolve the override pointer, or allocate a fresh synthesized
opts cell capturing the current base logger value (lines 57-61); nil
out on `Disable`; otherwise store both pointers in the wrapper. -/
def newWrapperRef (h : OptHeap) (m : MiddlewareRef)
    (args : List (Option Nat)) : OptHeap × Option WrapperRef :=
  let (h1, r) := match resolveOptRef args with
    | some r => (h, r)
    | none => h.alloc
        { logBodyFilter := none, logHeadersFilter := none,
          logger := (h.get m.optsRef).logger, disable := false }
  if (h1.get r).disable then (h1, none)
  else (h1, some { optsRef := r, baseOptsRef := m.optsRef })

/-- Pointer-level model of `RequestLoggerMiddleware.SetLogger` (lines
78-81): `self.opts.Logger = logger` mutates the cell the middleware
points at. -/
def setLoggerRef (h : OptHeap) (m : MiddlewareRef) (l : Option Logger) : OptHeap :=
  h.set m.optsRef { h.get m.optsRef with logger := l }

/-- The logger a wrapper uses at request time: `Wrap` reads
`self.opts.Logger` (lines 121, 156, 174), never `base_opts.Logger`. -/
def wrapperEffectiveLogger (h : OptHeap) (w : WrapperRef) : Option Logger :=
  (h.get w.optsRef).logger

/-! ## Concrete fixtures used by witnesses and counterexamples -/

/-- A concrete per-invocation body filter. -/
def bf1 : Ctx → Body → Body := fun _ b => 1 :: b

/-- A concrete base body filter, distinct from `bf1`. -/
def bg1 : Ctx → Body → Body := fun _ b => 2 :: b

/-- A concrete per-invocation headers filter. -/
def hf1 : Ctx → Header → Header := fun _ h => ("F", ["f"]) :: h

/-- A concrete base headers filter, distinct from `hf1`. -/
def hg1 : Ctx → Header → Header := fun _ h => ("G", ["g"]) :: h

/-- A wrapper with both base and per-invocation filters configured. -/
def cw1 : RequestLoggerWrapper :=
  { opts := { logBodyFilter := some bf1, logHeadersFilter := some hf1,
              logger := some 1, disable := false },
    base_opts := { logBodyFilter := some bg1, logHeadersFilter := some hg1,
                   logger := some 2, disable := false } }

/-- A wrapper with base filters configured but no per-invocation filters. -/
def cw2 : RequestLoggerWrapper :=
  { opts := { logBodyFilter := none, logHeadersFilter := none,
              logger := some 1, disable := false },
    base_opts := { logBodyFilter := some bg1, logHeadersFilter := some hg1,
                   logger := some 1, disable := false } }

/-- A concrete request state. -/
def st5 : ReqState :=
  { url := { path := "/users/42", query := "active=true" },
    respStatus := 200, respHeaders := [("C", ["c"])], respBody := [7] }

/-- A concrete wrap input with a successful body copy. -/
def inp5 : WrapInput :=
  { ctx := 7, method := "GET", routeFullPath := "/users/:id",
    reqHeaders := [("A", ["x"])], bodyCopy := .ok [9], initState := st5 }

/-- A concrete downstream handler that mutates the request URL and
writes a response. -/
def handler5 : Ctx → ReqState → ReqState := fun c s =>
  { s with url := { path := "/mutated", query := "z=0" },
           respStatus := s.respStatus + c }

/-! ## Claims -/

/-- C1: on a wrapper where both a base and a per-invocation filter of the
same kind are configured, the logged body (resp. headers) is the
per-invocation filter applied, then applied a second time — the base
filters `g`, `gh` appear nowhere in the result, so their transformation
never contributes. -/
theorem c1_per_invocation_filter_applied_twice (w : RequestLoggerWrapper)
    (ctx : Ctx) (b : Body) (hs : Header)
    (f g : Ctx → Body → Body) (fh gh : Ctx → Header → Header)
    (hof : w.opts.logBodyFilter = some f)
    (hbf : w.base_opts.logBodyFilter = some g)
    (hoh : w.opts.logHeadersFilter = some fh)
    (hbh : w.base_opts.logHeadersFilter = some gh) :
    w.filterBody ctx b = some (f ctx (f ctx b)) ∧
    w.filterHeaders ctx hs = some (fh ctx (fh ctx (copyHeader hs))) := by
  constructor
  · simp [RequestLoggerWrapper.filterBody, hof, hbf]
  · simp [RequestLoggerWrapper.filterHeaders, headerFilterPolicy, hoh, hbh]

/-- C1 witness: evaluated on `cw1`, whose per-invocation filters prepend
`1` / `("F", ["f"])` and whose base filters would prepend `2` /
`("G", ["g"])`: the base contribution is absent. -/
theorem c1_witness :
    cw1.filterBody 0 [9] = some [1, 1, 9] ∧
    cw1.filterHeaders 0 [("A", ["x"])] =
      some [("F", ["f"]), ("F", ["f"]), ("A", ["x"])] :=
  c1_per_invocation_filter_applied_twice cw1 0 [9] [("A", ["x"])]
    bf1 bg1 hf1 hg1 rfl rfl rfl rfl

/-- C2 counterexample: on `cw2` (base filters configured, per-invocation
filters absent) the filter steps call `FilterBody`/`FilterHeaders` on a
nil interface and panic (modelled `none`) — neither total nor the
identity transform. -/
theorem c2_counterexample :
    cw2.filterBody 0 [3] = none ∧
    cw2.filterHeaders 0 [("A", ["x"])] = none :=
  ⟨rfl, rfl⟩

/-- C2 (amended): the body/headers filter steps are total except in the
combination "base filter configured, per-invocation filter absent",
where the step invokes the nil per-invocation filter and the request
panics; when no filter of the kind is configured at all, the step is
the identity on the (copied) input. -/
theorem c2_filter_step_characterization (w : RequestLoggerWrapper)
    (ctx : Ctx) (b : Body) (hs : Header) :
    w.filterBody ctx b =
      (match w.opts.logBodyFilter, w.base_opts.logBodyFilter with
        | none, none => some b
        | some f, none => some (f ctx b)
        | some f, some _ => some (f ctx (f ctx b))
        | none, some _ => none) ∧
    w.filterHeaders ctx hs =
      (match w.opts.logHeadersFilter, w.base_opts.logHeadersFilter with
        | none, none => some (copyHeader hs)
        | some f, none => some (f ctx (copyHeader hs))
        | some f, some _ => some (f ctx (f ctx (copyHeader hs)))
        | none, some _ => none) := by
  constructor
  · cases h1 : w.opts.logBodyFilter <;> cases h2 : w.base_opts.logBodyFilter <;>
      simp [RequestLoggerWrapper.filterBody, h1, h2]
  · cases h1 : w.opts.logHeadersFilter <;>
      cases h2 : w.base_opts.logHeadersFilter <;>
        simp [RequestLoggerWrapper.filterHeaders, headerFilterPolicy, h1, h2]

/-- C5: on a wrapper whose effective logger is nil or whose disabled flag
is set, the wrapped handler runs the downstream handler exactly once
with the original context, emits zero log calls, and its result is
exactly the downstream handler's result. -/
theorem c5_disabled_passthrough (w : RequestLoggerWrapper) (inp : WrapInput)
    (handler : Ctx → ReqState → ReqState)
    (hd : w.opts.logger.isNone = true ∨ w.opts.disable = true) :
    w.wrap inp handler = .ok [.handlerRun] (handler inp.ctx inp.initState) := by
  rcases hd with h | h <;> simp [RequestLoggerWrapper.wrap, h]

/-- C5 witness: a wrapper with no logger configured anywhere passes the
request straight through. -/
theorem c5_witness :
    RequestLoggerWrapper.wrap
        { opts := default, base_opts := default } inp5 handler5 =
      .ok [.handlerRun] (handler5 7 st5) :=
  c5_disabled_passthrough { opts := default, base_opts := default }
    inp5 handler5 (Or.inl rfl)

/-- C6: `NewWrapper` returns an absent wrapper exactly when the resolved
override opts — the first `*RequestLoggerOpts` among the variadic
arguments, or the synthesized default (whose disable flag is false) —
has its disable flag set. -/
theorem c6_nil_wrapper_iff_disable (m : RequestLoggerMiddleware)
    (args : List WrapperArg) :
    m.NewWrapper args = none ↔
      ((resolveOpt args).getD (synthOpts m)).disable = true := by
  unfold RequestLoggerMiddleware.NewWrapper
  by_cases h : ((resolveOpt args).getD (synthOpts m)).disable <;> simp [h]

/-- C7: on an enabled wrapper, a failing body copy aborts the request
with a panic carrying the underlying cause; zero log calls are emitted
and the downstream handler never runs. -/
theorem c7_body_copy_failure_is_fatal (w : RequestLoggerWrapper)
    (inp : WrapInput) (handler : Ctx → ReqState → ReqState) (e : String)
    (hlog : w.opts.logger.isNone = false) (hdis : w.opts.disable = false)
    (herr : inp.bodyCopy = .error e) :
    w.wrap inp handler = .panicked (.bodyRead e) [] := by
  simp [RequestLoggerWrapper.wrap, hlog, hdis, herr]

/-- C7 witness: a concrete enabled wrapper with a failing body copy. -/
theorem c7_witness :
    RequestLoggerWrapper.wrap cw1
        { inp5 with bodyCopy := .error "stream closed" } handler5 =
      .panicked (.bodyRead "stream closed") [] :=
  c7_body_copy_failure_is_fatal cw1
    { inp5 with bodyCopy := .error "stream closed" } handler5
    "stream closed" rfl rfl rfl

/-- A middleware whose base opts carry logger `1` and no filters. -/
def cm3 : RequestLoggerMiddleware :=
  { opts := { logBodyFilter := none, logHeadersFilter := none,
              logger := some 1, disable := false } }

/-- An override with every field unset (logger nil, filters nil). -/
def co3 : RequestLoggerOpts :=
  { logBodyFilter := none, logHeadersFilter := none, logger := none,
    disable := false }

/-- C3 counterexample: `NewWrapper` with an override whose logger is
unset returns a non-nil wrapper whose effective logger is nil; the base
logger `some 1` is not inherited into the override. -/
theorem c3_counterexample :
    cm3.NewWrapper [WrapperArg.optsPtr (some co3)] =
      some { base_opts := cm3.opts, opts := co3 } ∧
    co3.logger = none ∧ cm3.opts.logger = some 1 :=
  ⟨rfl, rfl, rfl⟩

/-- C3 (amended): with no override resolved, `NewWrapper` synthesizes an
effective configuration carrying only the base logger and no filters;
a given override is used as-is — unset filters mean no filtering, but an
unset logger is NOT replaced by the base logger, so such a wrapper has a
nil effective log sink (logging is then skipped at request time); the
middleware built by `NewMiddleware` itself always has a non-nil base
logger. -/
theorem c3_new_wrapper_defaults (m : RequestLoggerMiddleware)
    (args : List WrapperArg) (o : RequestLoggerOpts)
    (bo : Option RequestLoggerOpts)
    (hres : resolveOpt args = none) (hdis : o.disable = false) :
    m.NewWrapper args = some { base_opts := m.opts, opts := synthOpts m } ∧
    (synthOpts m).logger = m.opts.logger ∧
    (synthOpts m).logBodyFilter = none ∧
    (synthOpts m).logHeadersFilter = none ∧
    m.NewWrapper [WrapperArg.optsPtr (some o)] =
      some { base_opts := m.opts, opts := o } ∧
    (NewMiddleware bo).opts.logger.isSome = true := by
  refine ⟨?_, rfl, rfl, rfl, ?_, ?_⟩
  · simp [RequestLoggerMiddleware.NewWrapper, hres, synthOpts]
  · simp [RequestLoggerMiddleware.NewWrapper, resolveOpt, hdis]
  · cases bo with
    | none => rfl
    | some o2 =>
      cases ho : o2.logger with
      | none => simp [NewMiddleware, ho]
      | some l => simp [NewMiddleware, ho]

/-- C3 witness: evaluated on `cm3` with no resolvable override among the
arguments, with the all-unset override `co3`, and with `NewMiddleware`
given no opts. -/
theorem c3_witness :
    cm3.NewWrapper [WrapperArg.other] =
      some { base_opts := cm3.opts, opts := synthOpts cm3 } ∧
    (synthOpts cm3).logger = cm3.opts.logger ∧
    (synthOpts cm3).logBodyFilter = none ∧
    (synthOpts cm3).logHeadersFilter = none ∧
    cm3.NewWrapper [WrapperArg.optsPtr (some co3)] =
      some { base_opts := cm3.opts, opts := co3 } ∧
    (NewMiddleware none).opts.logger.isSome = true :=
  c3_new_wrapper_defaults cm3 [WrapperArg.other] co3 none rfl rfl

/-- The body-filter step cannot hit the nil-interface call when a
configured base filter implies a configured per-invocation filter. -/
theorem filterBody_total (w : RequestLoggerWrapper) (ctx : Ctx) (b : Body)
    (hc : w.base_opts.logBodyFilter.isSome → w.opts.logBodyFilter.isSome) :
    (w.filterBody ctx b).isSome := by
  by_cases hb : w.base_opts.logBodyFilter.isSome
  · rcases Option.isSome_iff_exists.mp (hc hb) with ⟨f, hf⟩
    simp [RequestLoggerWrapper.filterBody, hb, hf]
  · simp [RequestLoggerWrapper.filterBody, hb]

/-- The headers-filter step cannot hit the nil-interface call when a
configured base filter implies a configured per-invocation filter. -/
theorem filterHeaders_total (w : RequestLoggerWrapper) (ctx : Ctx)
    (hs : Header)
    (hc : w.base_opts.logHeadersFilter.isSome → w.opts.logHeadersFilter.isSome) :
    (w.filterHeaders ctx hs).isSome := by
  by_cases hb : w.base_opts.logHeadersFilter.isSome
  · rcases Option.isSome_iff_exists.mp (hc hb) with ⟨f, hf⟩
    simp [RequestLoggerWrapper.filterHeaders, headerFilterPolicy, hb, hf]
  · simp [RequestLoggerWrapper.filterHeaders, headerFilterPolicy, hb]

/-- C4 counterexample: on `cw2` (logger present, not disabled) with a
successful body copy, the run panics in the body-filter step before any
log call: zero log-sink calls occur instead of exactly two. -/
theorem c4_counterexample :
    cw2.opts.logger.isNone = false ∧ cw2.opts.disable = false ∧
    WrapInput.bodyCopy { inp5 with bodyCopy := .ok [] } = Except.ok [] ∧
    cw2.wrap { inp5 with bodyCopy := .ok [] } handler5 =
      .panicked .nilFilterCall [] :=
  ⟨rfl, rfl, rfl, rfl⟩

/-- C4 (amended): on a wrapper whose effective logger is non-nil, whose
disabled flag is false, whose body copy succeeds, and which additionally
does not hit the nil-filter defect (whenever a base filter of a kind is
configured, the per-invocation filter of that kind is too), exactly two
log-sink calls occur: one tagged "Received request:" strictly before the
downstream handler runs and one tagged "Sent response:" strictly after
it returns. -/
theorem c4_two_log_calls_around_handler (w : RequestLoggerWrapper)
    (inp : WrapInput) (handler : Ctx → ReqState → ReqState)
    (L : Logger) (b : Body)
    (hlog : w.opts.logger = some L) (hdis : w.opts.disable = false)
    (hbody : inp.bodyCopy = .ok b)
    (hbf : w.base_opts.logBodyFilter.isSome → w.opts.logBodyFilter.isSome)
    (hhf : w.base_opts.logHeadersFilter.isSome → w.opts.logHeadersFilter.isSome) :
    ∃ req resp,
      w.wrap inp handler =
        .ok [.logDebug inp.ctx "Received request:" (.request req),
             .handlerRun,
             .logDebug inp.ctx "Sent response:" (.full req resp)]
          (handler inp.ctx inp.initState) := by
  rcases Option.isSome_iff_exists.mp (filterBody_total w inp.ctx b hbf)
    with ⟨fb, hfb⟩
  rcases Option.isSome_iff_exists.mp
      (filterHeaders_total w inp.ctx inp.reqHeaders hhf) with ⟨fh, hfh⟩
  rcases Option.isSome_iff_exists.mp
      (filterBody_total w inp.ctx (handler inp.ctx inp.initState).respBody hbf)
    with ⟨fb2, hfb2⟩
  rcases Option.isSome_iff_exists.mp
      (filterHeaders_total w inp.ctx (handler inp.ctx inp.initState).respHeaders hhf)
    with ⟨fh2, hfh2⟩
  refine ⟨{ route := { method := inp.method, route := inp.routeFullPath,
                       path := inp.initState.url.path,
                       query := inp.initState.url.query },
            headers := fh, body := fb },
          { status := (handler inp.ctx inp.initState).respStatus,
            headers := fh2, body := fb2 }, ?_⟩
  simp [RequestLoggerWrapper.wrap, hlog, hdis, hbody, hfb, hfh, hfb2, hfh2]

/-- C4 witness: evaluated on `cw1` (all filters configured) with the
concrete input `inp5` and handler `handler5`. -/
theorem c4_witness :
    ∃ req resp,
      cw1.wrap inp5 handler5 =
        .ok [.logDebug inp5.ctx "Received request:" (.request req),
             .handlerRun,
             .logDebug inp5.ctx "Sent response:" (.full req resp)]
          (handler5 inp5.ctx inp5.initState) :=
  c4_two_log_calls_around_handler cw1 inp5 handler5 1 [9] rfl rfl rfl
    (fun _ => rfl) (fun _ => rfl)

/-- Old slice cells are unchanged by the copy loop: the store only
grows. -/
theorem copyHeadersAlloc_get_lt (h : HeaderRef) :
    ∀ (st : SliceHeap) (i : Nat), i < st.slices.length →
      ((copyHeadersAlloc st h).1).slices[i]? = st.slices[i]? := by
  induction h with
  | nil => intro st i _; rfl
  | cons q rest ih =>
    intro st i hi
    obtain ⟨k, r⟩ := q
    simp only [copyHeadersAlloc, SliceHeap.alloc]
    rw [ih _ i (by simp; omega)]
    exact List.getElem?_append_left hi

/-- Every reference produced by the copy loop is fresh: at least the
pre-copy store size. -/
theorem copyHeadersAlloc_fresh (h : HeaderRef) :
    ∀ (st : SliceHeap) (q : String × Nat), q ∈ (copyHeadersAlloc st h).2 →
      st.slices.length ≤ q.2 := by
  induction h with
  | nil => intro st q hq; simp [copyHeadersAlloc] at hq
  | cons p rest ih =>
    intro st q hq
    obtain ⟨k, r⟩ := p
    simp only [copyHeadersAlloc, SliceHeap.alloc] at hq
    rcases List.mem_cons.mp hq with h1 | h2
    · subst h1; exact Nat.le_refl _
    · have hle := ih _ q h2
      simp only [List.length_append, List.length_singleton] at hle
      omega

/-- Dereferencing valid references is unaffected by an allocation. -/
theorem derefHeader_alloc (st : SliceHeap) (v : List String) (h : HeaderRef)
    (hv : ∀ p ∈ h, p.2 < st.slices.length) :
    derefHeader (st.alloc v).1 h = derefHeader st h := by
  unfold derefHeader SliceHeap.alloc SliceHeap.read
  refine List.map_congr_left (fun p hp => ?_)
  simp only
  rw [List.getD_append _ _ _ _ (hv p hp)]

/-- The copy loop preserves the contents of the input header: the copy
denotes the same header value as the original. -/
theorem copyHeadersAlloc_deref (h : HeaderRef) :
    ∀ st : SliceHeap, (∀ p ∈ h, p.2 < st.slices.length) →
      derefHeader (copyHeadersAlloc st h).1 (copyHeadersAlloc st h).2 =
        derefHeader st h := by
  induction h with
  | nil => intro st _; rfl
  | cons q rest ih =>
    intro st hv
    obtain ⟨k, r⟩ := q
    have hvr : r < st.slices.length := hv (k, r) (List.mem_cons_self _ _)
    have hvrest : ∀ p ∈ rest, p.2 < st.slices.length :=
      fun p hp => hv p (List.mem_cons_of_mem _ hp)
    simp only [copyHeadersAlloc, SliceHeap.alloc]
    unfold derefHeader at ih ⊢
    simp only [List.map_cons, List.cons.injEq]
    constructor
    · -- the fresh cell read back through the final store
      refine congrArg (Prod.mk k) ?_
      unfold SliceHeap.read
      rw [List.getD_eq_getD_get?, List.get?_eq_getElem?,
          copyHeadersAlloc_get_lt rest _ st.slices.length (by simp),
          ← List.get?_eq_getElem?, ← List.getD_eq_getD_get?,
          List.getD_append_right _ _ _ _ (Nat.le_refl _)]
      simp
    · have hrest : ∀ p ∈ rest,
          p.2 < (st.slices ++ [(SliceHeap.read st r).map id]).length := by
        intro p hp
        have := hvrest p hp
        simp only [List.length_append, List.length_singleton]
        omega
      rw [ih { slices := st.slices ++ [(SliceHeap.read st r).map id] } hrest]
      refine List.map_congr_left (fun p hp => ?_)
      unfold SliceHeap.read
      rw [List.getD_append _ _ _ _ (hvrest p hp)]

/-- C8: `filterHeaders` first deep-copies every key and its value
sequence: at the pointer level the copy loop allocates only fresh slices
(disjoint from every pre-existing reference, the live header's
included), leaves every pre-existing slice cell untouched, and the copy
denotes exactly the contents of the live header; the filter policy is
then applied to the copy.  At the value level the copy is
content-faithful. -/
theorem c8_headers_copied_before_filtering (st : SliceHeap) (h : HeaderRef)
    (w : RequestLoggerWrapper) (ctx : Ctx) (hdrs : Header)
    (hv : ∀ p ∈ h, p.2 < st.slices.length) :
    (∀ i, i < st.slices.length →
      ((copyHeadersAlloc st h).1).slices[i]? = st.slices[i]?) ∧
    (∀ p ∈ h, ∀ q ∈ (copyHeadersAlloc st h).2, p.2 ≠ q.2) ∧
    derefHeader (copyHeadersAlloc st h).1 (copyHeadersAlloc st h).2 =
      derefHeader st h ∧
    w.filterHeaders ctx hdrs = headerFilterPolicy w ctx (copyHeader hdrs) ∧
    copyHeader hdrs = hdrs := by
  refine ⟨fun i hi => copyHeadersAlloc_get_lt h st i hi, ?_,
          copyHeadersAlloc_deref h st hv, rfl, ?_⟩
  · intro p hp q hq
    have h1 := hv p hp
    have h2 := copyHeadersAlloc_fresh h st q hq
    omega
  · unfold copyHeader
    refine Eq.trans (List.map_congr_left (fun p _ => ?_)) (List.map_id hdrs)
    simp

/-- A concrete slice heap holding two header value slices. -/
def st8 : SliceHeap := { slices := [["x"], ["y", "z"]] }

/-- A concrete pointer-level header over `st8`. -/
def h8 : HeaderRef := [("A", 0), ("B", 1)]

/-- C8 witness: evaluated on the concrete heap `st8`, header `h8`,
wrapper `cw1` and header value `[("A", ["x"])]`. -/
theorem c8_witness :
    (∀ i, i < st8.slices.length →
      ((copyHeadersAlloc st8 h8).1).slices[i]? = st8.slices[i]?) ∧
    (∀ p ∈ h8, ∀ q ∈ (copyHeadersAlloc st8 h8).2, p.2 ≠ q.2) ∧
    derefHeader (copyHeadersAlloc st8 h8).1 (copyHeadersAlloc st8 h8).2 =
      derefHeader st8 h8 ∧
    cw1.filterHeaders 0 [("A", ["x"])] =
      headerFilterPolicy cw1 0 (copyHeader [("A", ["x"])]) ∧
    copyHeader [("A", ["x"])] = [("A", ["x"])] :=
  c8_headers_copied_before_filtering st8 h8 cw1 0 [("A", ["x"])]
    (by decide)

/-- Whether an event's logged route fields carry the path and query of
the given URL (trivially true for non-log events). -/
def Event.routeFromURL (u : URL) : Event → Prop
  | .logDebug _ _ (.request req) =>
    req.route.path = u.path ∧ req.route.query = u.query
  | .logDebug _ _ (.full req _) =>
    req.route.path = u.path ∧ req.route.query = u.query
  | .handlerRun => True

/-- C9: every log call a run emits carries `path`/`query` taken from the
by-value URL snapshot made when the request entered the interceptor:
whatever mutation the (arbitrary) downstream handler performs on its
view of the URL, the logged route fields are those of the initial
URL. -/
theorem c9_logged_url_is_entry_snapshot (w : RequestLoggerWrapper)
    (inp : WrapInput) (handler : Ctx → ReqState → ReqState) (e : Event)
    (he : e ∈ (w.wrap inp handler).events) :
    e.routeFromURL inp.initState.url := by
  simp only [RequestLoggerWrapper.wrap] at he
  split at he
  · simp [WrapResult.events] at he
    subst he; trivial
  · split at he
    · simp [WrapResult.events] at he
    · split at he
      · simp [WrapResult.events] at he
      · split at he
        · simp [WrapResult.events] at he
        · split at he
          · simp [WrapResult.events] at he
            rcases he with h1 | h1 <;> (subst h1; trivial)
          · split at he
            · simp [WrapResult.events] at he
              rcases he with h1 | h1 <;> (subst h1; trivial)
            · simp [WrapResult.events] at he
              rcases he with h1 | h1 | h1 <;> (subst h1; trivial)

/-- C9 witness: in the run of `cw1` on `inp5` with the URL-mutating
handler `handler5`, the emitted request log event carries the entry
path `/users/42` and query `active=true`, not the mutated values. -/
theorem c9_witness :
    Event.routeFromURL inp5.initState.url
      (.logDebug 7 "Received request:"
        (.request { route := { method := "GET", route := "/users/:id",
                               path := "/users/42", query := "active=true" },
                    headers := [("F", ["f"]), ("F", ["f"]), ("A", ["x"])],
                    body := [1, 1, 9] })) :=
  c9_logged_url_is_entry_snapshot cw1 inp5 handler5
    (.logDebug 7 "Received request:"
      (.request { route := { method := "GET", route := "/users/:id",
                             path := "/users/42", query := "active=true" },
                  headers := [("F", ["f"]), ("F", ["f"]), ("A", ["x"])],
                  body := [1, 1, 9] }))
    (by decide)

/-- Reading an untouched cell is unaffected by assignment to another. -/
theorem OptHeap.get_set_ne (hp : OptHeap) (i j : Nat)
    (v : RequestLoggerOpts) (hij : i ≠ j) :
    (hp.set i v).get j = hp.get j := by
  unfold OptHeap.set OptHeap.get
  rw [List.getD_eq_getD_get?, List.get?_eq_getElem?, List.getElem?_set_ne hij,
      ← List.get?_eq_getElem?, ← List.getD_eq_getD_get?]

/-- Reading a cell just assigned yields the assigned value. -/
theorem OptHeap.get_set_self (hp : OptHeap) (i : Nat)
    (v : RequestLoggerOpts) (hi : i < hp.cells.length) :
    (hp.set i v).get i = v := by
  unfold OptHeap.set OptHeap.get
  rw [List.getD_eq_getD_get?, List.get?_eq_getElem?,
      List.getElem?_set_self (by simpa using hi)]
  rfl

/-- Reading the freshly allocated cell yields the allocated value. -/
theorem OptHeap.get_alloc_self (hp : OptHeap) (v : RequestLoggerOpts) :
    ((hp.alloc v).1).get hp.cells.length = v := by
  unfold OptHeap.alloc OptHeap.get
  rw [List.getD_append_right _ _ _ _ (Nat.le_refl _)]
  simp

/-- Reading a pre-existing cell is unaffected by an allocation. -/
theorem OptHeap.get_alloc_lt (hp : OptHeap) (v : RequestLoggerOpts)
    (i : Nat) (hi : i < hp.cells.length) :
    ((hp.alloc v).1).get i = hp.get i := by
  unfold OptHeap.alloc OptHeap.get
  rw [List.getD_append _ _ _ _ hi]

/-- `NewWrapper` with no override allocates a fresh synthesized opts cell
capturing the current base logger value and points the wrapper at it. -/
theorem newWrapperRef_nil (h : OptHeap) (m : MiddlewareRef) :
    newWrapperRef h m [] =
      ((h.alloc { logBodyFilter := none, logHeadersFilter := none,
                  logger := (h.get m.optsRef).logger, disable := false }).1,
       some { optsRef := h.cells.length, baseOptsRef := m.optsRef }) := by
  simp only [newWrapperRef, resolveOptRef, OptHeap.alloc, OptHeap.get]
  rw [List.getD_append_right _ _ _ _ (Nat.le_refl _)]
  simp

/-- C10: a wrapper created without an override captures the base logger
value at creation time in a freshly allocated cell; a later `SetLogger`
on the middleware mutates the base configuration cell (its logger field
becomes the new value) but never changes the effective logger the
already-created wrapper reads at request time. -/
theorem c10_wrapper_logger_fixed_at_creation (h : OptHeap)
    (m : MiddlewareRef) (l : Option Logger)
    (hm : m.optsRef < h.cells.length) :
    ∃ wr : WrapperRef,
      (newWrapperRef h m []).2 = some wr ∧
      wrapperEffectiveLogger (newWrapperRef h m []).1 wr =
        (h.get m.optsRef).logger ∧
      wrapperEffectiveLogger (setLoggerRef (newWrapperRef h m []).1 m l) wr =
        (h.get m.optsRef).logger ∧
      ((setLoggerRef (newWrapperRef h m []).1 m l).get m.optsRef).logger = l := by
  refine ⟨{ optsRef := h.cells.length, baseOptsRef := m.optsRef }, ?_, ?_, ?_, ?_⟩
  · rw [newWrapperRef_nil]
  · rw [newWrapperRef_nil]
    unfold wrapperEffectiveLogger
    rw [OptHeap.get_alloc_self]
  · rw [newWrapperRef_nil]
    unfold wrapperEffectiveLogger setLoggerRef
    rw [OptHeap.get_set_ne _ _ _ _ (Nat.ne_of_lt hm)]
    rw [OptHeap.get_alloc_self]
  · rw [newWrapperRef_nil]
    unfold setLoggerRef
    rw [OptHeap.get_set_self _ _ _ (by
      unfold OptHeap.alloc
      simp only [List.length_append, List.length_singleton]
      omega)]

/-- A concrete one-cell opts heap whose base configuration carries
logger `3`. -/
def h10 : OptHeap :=
  { cells := [{ logBodyFilter := none, logHeadersFilter := none,
                logger := some 3, disable := false }] }

/-- A concrete middleware pointer into `h10`. -/
def m10 : MiddlewareRef := { optsRef := 0 }

/-- C10 witness: on the concrete heap `h10`, setting logger `7` on the
middleware after wrapper creation leaves the wrapper reading `some 3`
while the base cell now reads `some 7`. -/
theorem c10_witness :
    ∃ wr : WrapperRef,
      (newWrapperRef h10 m10 []).2 = some wr ∧
      wrapperEffectiveLogger (newWrapperRef h10 m10 []).1 wr =
        (h10.get m10.optsRef).logger ∧
      wrapperEffectiveLogger
          (setLoggerRef (newWrapperRef h10 m10 []).1 m10 (some 7)) wr =
        (h10.get m10.optsRef).logger ∧
      ((setLoggerRef (newWrapperRef h10 m10 []).1 m10 (some 7)).get
          m10.optsRef).logger = some 7 :=
  c10_wrapper_logger_fixed_at_creation h10 m10 (some 7) (by decide)
